import Mathlib

/-!
Verification of node-fast-messages (lib/server.js, lib/client.js) against its
natural-language specification.

The JavaScript code is shallowly embedded: JS values are modelled by the
inductive `JSVal` (numbers are idealized to the integers plus a separate NaN
marker; none of the verified properties involve fractional values), objects by
field lists, and the side effects of the server's RPC handlers (frames written
to a channel, ending a channel, failing an RPC) by explicit `Effect` lists.
UUID generation is nondeterministic in the source, so `send` takes the freshly
generated id as an extra argument.  The client's mooremachine FSM is modelled
as a transition table: for each state, the set of events for which the state
registers a handler, and the target state of each handler.
-/

mutual
/-- JS values, as used by lib/server.js and lib/client.js.  Numbers are
idealized to integers; `nan` stands for the JS number NaN. -/
inductive JSVal where
  | undef
  | null
  | bool (b : Bool)
  | num (n : Int)
  | nan
  | str (s : String)
  | arr (elems : JSList)
  | obj (fields : JSFields)
deriving DecidableEq, Repr

/-- The elements of a JS array value. -/
inductive JSList where
  | nil
  | cons (v : JSVal) (rest : JSList)
deriving DecidableEq, Repr

/-- The own properties of a JS object value, in insertion order. -/
inductive JSFields where
  | nil
  | cons (k : String) (v : JSVal) (rest : JSFields)
deriving DecidableEq, Repr
end

/-- Out-of-range indexing in JS yields undefined. -/
instance : Inhabited JSVal := ⟨.undef⟩

/-- Convenience builder for object literals. -/
def jobj : List (String × JSVal) → JSVal
  | kvs => .obj (kvs.foldr (fun kv acc => .cons kv.1 kv.2 acc) .nil)

/-- Convenience builder for array literals. -/
def jarr : List JSVal → JSVal
  | vs => .arr (vs.foldr .cons .nil)

/-- `typeof v` in JS, restricted to the value forms of `JSVal`. -/
def typeofStr : JSVal → String
  | .undef => "undefined"
  | .null => "object"
  | .bool _ => "boolean"
  | .num _ => "number"
  | .nan => "number"
  | .str _ => "string"
  | .arr _ => "object"
  | .obj _ => "object"

/-- `Array.isArray(v)`. -/
def isArray : JSVal → Bool
  | .arr _ => true
  | _ => false

def isNull : JSVal → Bool
  | .null => true
  | _ => false

/-- `typeof v === 'string'`. -/
def isString (v : JSVal) : Bool :=
  typeofStr v == "string"

/-- `typeof v === 'number'` (NaN is a JS number). -/
def isNumber (v : JSVal) : Bool :=
  typeofStr v == "number"

/-- lib/server.js `isObject`: `typeof obj === 'object' && obj !== null &&
!Array.isArray(obj)`. -/
def isObject (v : JSVal) : Bool :=
  (typeofStr v == "object") && !(isNull v) && !(isArray v)

/-- JS truthiness: undefined, null, false, 0, NaN and the empty string are
falsy; every other value is truthy. -/
def truthy : JSVal → Bool
  | .undef => false
  | .null => false
  | .bool b => b
  | .num n => n != 0
  | .nan => false
  | .str s => s != ""
  | .arr _ => true
  | .obj _ => true

/-- `a || b` in JS: `a` when truthy, else `b`. -/
def jsOr (a b : JSVal) : JSVal :=
  if truthy a then a else b

/-- Property lookup in an object's field list. -/
def lookupField : JSFields → String → JSVal
  | .nil, _ => .undef
  | .cons k v rest, key => if k = key then v else lookupField rest key

/-- `v.key`: property access; non-objects yield undefined here (the embedded
code only reads properties off validated objects). -/
def getField : JSVal → String → JSVal
  | .obj fs, key => lookupField fs key
  | _, _ => .undef

def hasFieldList : JSFields → String → Bool
  | .nil, _ => false
  | .cons k _ rest, key => k == key || hasFieldList rest key

/-- `v.hasOwnProperty(key)`. -/
def hasOwn : JSVal → String → Bool
  | .obj fs, key => hasFieldList fs key
  | _, _ => false

/-- The string a JS integer converts to. -/
def numToString (n : Int) : String := toString n

mutual
/-- JS ToString on a `JSVal` (arrays join their elements with commas;
plain objects stringify to "[object Object]"). -/
def jsToString : JSVal → String
  | .undef => "undefined"
  | .null => "null"
  | .bool true => "true"
  | .bool false => "false"
  | .num n => numToString n
  | .nan => "NaN"
  | .str s => s
  | .arr xs => jsArrJoin xs
  | .obj _ => "[object Object]"

/-- Array.prototype.join with "," — null and undefined elements render as
the empty string. -/
def jsArrJoin : JSList → String
  | .nil => ""
  | .cons v .nil => jsArrElemString v
  | .cons v rest => jsArrElemString v ++ "," ++ jsArrJoin rest

/-- One array element's contribution to the join. -/
def jsArrElemString : JSVal → String
  | .undef => ""
  | .null => ""
  | v => jsToString v
end

/-- String-to-number conversion, on the integer fragment of JS numerals:
optional sign and decimal digits after trimming; the empty string is 0;
anything else is NaN (`none`). -/
def strToNumber (s : String) : Option Int :=
  let t := s.trim
  if t = "" then some 0
  else
    let (sign, digits) :=
      if t.startsWith "-" then ((-1 : Int), t.drop 1)
      else if t.startsWith "+" then ((1 : Int), t.drop 1)
      else ((1 : Int), t)
    if digits.length > 0 && digits.all Char.isDigit then
      some (sign * (digits.toNat?.getD 0 : Nat))
    else
      none

/-- JS ToNumber (`none` = NaN): arrays and objects go through ToPrimitive,
i.e. their ToString. -/
def toNumber : JSVal → Option Int
  | .undef => none
  | .null => some 0
  | .bool b => some (if b then 1 else 0)
  | .num n => some n
  | .nan => none
  | .str s => strToNumber s
  | .arr xs => strToNumber (jsToString (.arr xs))
  | .obj fs => strToNumber (jsToString (.obj fs))

/-- The JS comparison `v >= 1`: ToNumber the operand (the right side is the
number 1, so no string-string comparison arises); NaN compares false. -/
def jsGe1 (v : JSVal) : Bool :=
  match toNumber v with
  | none => false
  | some n => 1 ≤ n

/-! ## Server model (lib/server.js) -/

/-- Side effects of the server's RPC handlers.  `write ch frame` is
`rpc.write(frame)` on channel `ch`; `endCh ch` is `rpc.end()` on a
subscription's channel; `failRpc msg` is `rpc.fail(new Error(msg))`;
`endRpc` is the successful `rpc.end()` completing a ping. -/
inductive Effect where
  | write (ch : Nat) (frame : JSVal)
  | endCh (ch : Nat)
  | failRpc (msg : String)
  | endRpc
deriving DecidableEq, Repr

/-- The mutable server state: `clients` is the `this.clients` map from
client_id to that subscription's RPC channel (insertion-ordered, unique
keys, as a JS object); `stateClients` is `this.state.clients`;
`last_req_id` and `last_id` are `this.state.last_req_id` / `last_id`
(initially absent, i.e. undefined). -/
structure ServerState where
  clients : List (String × Nat)
  stateClients : List String
  server_id : String
  last_req_id : JSVal := .undef
  last_id : JSVal := .undef
deriving DecidableEq, Repr

/-- JS object property read `m[k]` on the clients map. -/
def mapFind : List (String × Nat) → String → Option Nat
  | [], _ => none
  | (k, v) :: rest, key => if k = key then some v else mapFind rest key

/-- JS property assignment `m[k] = v`: update in place if present, else
append. -/
def mapSet : List (String × Nat) → String → Nat → List (String × Nat)
  | [], k, v => [(k, v)]
  | (k', v') :: rest, k, v =>
      if k' = k then (k, v) :: rest else (k', v') :: mapSet rest k v

/-- JS `delete m[k]`. -/
def mapDelete : List (String × Nat) → String → List (String × Nat)
  | [], _ => []
  | (k', v') :: rest, k =>
      if k' = k then rest else (k', v') :: mapDelete rest k

/-- `indexOf` + `splice(idx, 1)`: remove the first occurrence, if any. -/
def eraseFirstStr : List String → String → List String
  | [], _ => []
  | x :: xs, y => if x = y then xs else x :: eraseFirstStr xs y

/-- `StreamServer.prototype.removeClient`: end and delete the client's RPC
channel if the map still has one, and splice the id out of
`state.clients`. -/
def removeClient (st : ServerState) (clientID : String) :
    ServerState × List Effect :=
  let (cl, effs) :=
    match mapFind st.clients clientID with
    | some ch => (mapDelete st.clients clientID, [Effect.endCh ch])
    | none => (st.clients, [])
  ({ st with clients := cl,
             stateClients := eraseFirstStr st.stateClients clientID },
   effs)

/-- Modelled from the spec: `common.VERSION`, the protocol version constant
exported by lib/common.js, which is not among the provided sources.  The spec
fixes only that it is the server's protocol version number; its exact value
does not matter for any verified property. -/
def commonVERSION : Int := 1

/-- The sync record `addClient` writes as the first frame on a fresh
subscription. -/
def syncRecord (st : ServerState) : JSVal :=
  jobj [("name", .str "sync"),
        ("last_req_id", st.last_req_id),
        ("last_id", st.last_id),
        ("server_id", .str st.server_id),
        ("version", .num commonVERSION)]

/-- The string carried by a `JSVal.str`; `addClient` only reads it from a
value its caller validated to be a string. -/
def asString : JSVal → String
  | .str s => s
  | _ => ""

/-- `StreamServer.prototype.addClient`: evict a duplicate client_id first,
register the new channel, and write the sync record when the declared
`version` is an own property with `opts.version >= 1` (JS comparison). -/
def addClient (st : ServerState) (opts : JSVal) (rpcCh : Nat) :
    ServerState × List Effect :=
  let clientID := asString (getField opts "client_id")
  let (st1, effs1) :=
    if st.stateClients.contains clientID
    then removeClient st clientID
    else (st, [])
  let st2 := { st1 with
               stateClients := st1.stateClients ++ [clientID],
               clients := mapSet st1.clients clientID rpcCh }
  let effs2 :=
    if hasOwn opts "version" && jsGe1 (getField opts "version")
    then [Effect.write rpcCh (syncRecord st2)]
    else []
  (st2, effs1 ++ effs2)

/-- The assert-plus guards at the top of `send`: `opts` is an object,
`opts.value` is not undefined, `opts.name` is a string, `opts.id` is
undefined or a number, `opts.req_id` is undefined or a string. -/
def validSendOpts (opts : JSVal) : Bool :=
  isObject opts &&
  (getField opts "value" != JSVal.undef) &&
  isString (getField opts "name") &&
  (getField opts "id" == JSVal.undef || isNumber (getField opts "id")) &&
  (getField opts "req_id" == JSVal.undef || isString (getField opts "req_id"))

/-- The message object `send` constructs: `opts.req_id || uuid.v1()` for the
req_id (the fresh uuid is the `freshId` parameter), the caller's id, name and
value, and the server's id. -/
def sendMessage (st : ServerState) (opts : JSVal) (freshId : String) : JSVal :=
  jobj [("id", getField opts "id"),
        ("name", getField opts "name"),
        ("req_id", jsOr (getField opts "req_id") (.str freshId)),
        ("server_id", .str st.server_id),
        ("value", getField opts "value")]

/-- `StreamServer.prototype.send`: write the message on every registered
client's channel (in the map's insertion order), then set
`state.last_req_id`, and set `state.last_id` only when `opts.id` is
truthy. -/
def send (st : ServerState) (opts : JSVal) (freshId : String) :
    ServerState × List Effect :=
  let req := jsOr (getField opts "req_id") (.str freshId)
  let msg := sendMessage st opts freshId
  let effs := st.clients.map (fun p => Effect.write p.2 msg)
  ({ st with
     last_req_id := req,
     last_id := if truthy (getField opts "id")
                then getField opts "id" else st.last_id },
   effs)

/-- `messagesHandler`: validate argc, the options object and `client_id`
(`typeof opts.client_id !== 'string'`), then register via `addClient`. -/
def messagesHandler (st : ServerState) (argv : List JSVal) (rpcCh : Nat) :
    ServerState × List Effect :=
  if argv.length ≠ 1 then
    (st, [Effect.failRpc "\"messages\" RPC expects one argument"])
  else
    let opts := argv.headI
    if !isObject opts then
      (st, [Effect.failRpc "\"messages\" RPC expects an options object"])
    else if !isString (getField opts "client_id") then
      (st, [Effect.failRpc "clients must provide their \"client_id\""])
    else
      addClient st opts rpcCh

/-- `pingHandler`: validate argc and the options object; fail when
`opts.req_id && typeof opts.req_id !== 'string'`; otherwise log and end the
RPC.  The server state is not touched. -/
def pingHandler (argv : List JSVal) : List Effect :=
  if argv.length ≠ 1 then
    [Effect.failRpc "\"ping\" RPC expects one argument"]
  else
    let opts := argv.headI
    if !isObject opts then
      [Effect.failRpc "\"ping\" RPC expects an options object"]
    else if truthy (getField opts "req_id") &&
            !isString (getField opts "req_id") then
      [Effect.failRpc "\"req_id\" must be a string if provided"]
    else
      [Effect.endRpc]

/-! ## Client model (lib/client.js) -/

/-- The states of the StreamClient mooremachine FSM, including the
sub-states `connecting.error`, `started.waiting` and `started.ready`. -/
inductive CState where
  | stopped
  | connecting
  | connectingError
  | connected
  | started
  | startedWaiting
  | startedReady
  | restart
  | closing
deriving DecidableEq, Repr

/-- The events a state handler can register for: the emitter events
asserted by `connect()` / `start()` / `close()`, the TCP socket's
`connect` / `error`, the backoff timer, the FastClient's `error`, and the
messages channel's `end` / `data`. -/
inductive CEvent where
  | connectAsserted
  | startAsserted
  | closeAsserted
  | socketConnect
  | socketError
  | timerFired
  | fastClientError
  | channelEnd
  | channelData
deriving DecidableEq, Repr

/-- The `S.validTransitions([...])` list declared on entry to each state;
`none` for the states that declare no list (`started.waiting`,
`started.ready`).  Mooremachine validates a transition against the list of
the state handle whose handler fired, so a handler a parent state
registered is checked against the parent's list even while the FSM sits in
one of its sub-states (e.g. `state_connecting`'s close handler firing in
`connecting.error` is checked against `connecting`'s list, which includes
`closing`). -/
def validTransitions : CState → Option (List CState)
  | .stopped => some [.connecting]
  | .connecting => some [.connected, .connectingError, .closing]
  | .connectingError => some [.connecting]
  | .connected => some [.started, .closing]
  | .started => some [.closing, .restart, .startedWaiting]
  | .startedWaiting => none
  | .startedReady => none
  | .restart => some [.connecting]
  | .closing => some [.stopped]

/-- The event handlers each state registers through `S.on` / `S.timeout`,
as the state the handler transitions to; `none` means the state registers
no handler for that event, so emitting it there is dropped (mooremachine
removes a state's `S.on` listeners when the state is left, and queues
nothing).  Per mooremachine sub-state semantics the handlers a parent
state registers stay in force while the FSM is in one of its sub-states:
`state_connecting`'s socket and close handlers remain live in
`connecting.error`, and `state_started`'s handlers remain live in
`started.waiting` and `started.ready`; those rows repeat the inherited
handlers.  In `started.ready` a `data` frame is handled (emitted to the
consumer as a `message`) without leaving the state. -/
def handleEvent : CState → CEvent → Option CState
  | .stopped, .connectAsserted => some .connecting
  | .connecting, .socketConnect => some .connected
  | .connecting, .socketError => some .connectingError
  | .connecting, .closeAsserted => some .closing
  | .connectingError, .timerFired => some .connecting
  | .connectingError, .socketConnect => some .connected
  | .connectingError, .socketError => some .connectingError
  | .connectingError, .closeAsserted => some .closing
  | .connected, .startAsserted => some .started
  | .connected, .closeAsserted => some .closing
  | .started, .fastClientError => some .restart
  | .started, .channelEnd => some .restart
  | .started, .closeAsserted => some .closing
  | .startedWaiting, .channelData => some .startedReady
  | .startedWaiting, .fastClientError => some .restart
  | .startedWaiting, .channelEnd => some .restart
  | .startedWaiting, .closeAsserted => some .closing
  | .startedReady, .channelData => some .startedReady
  | .startedReady, .fastClientError => some .restart
  | .startedReady, .channelEnd => some .restart
  | .startedReady, .closeAsserted => some .closing
  | _, _ => none

/-- The unconditional `S.gotoState` each state's entry function ends with
(given the `emittedConnect` latch for `connected`): `connected` on a
reconnect goes straight to `started`; `started` immediately enters
`started.waiting`; `restart` immediately reconnects; `closing` immediately
stops. -/
def entryStep (emittedConnect : Bool) : CState → Option CState
  | .connected => if emittedConnect then some .started else none
  | .started => some .startedWaiting
  | .restart => some .connecting
  | .closing => some .stopped
  | _ => none

/-- The `(level, delay)` choice in `state_connecting.error`, as a function
of `this.attempt`. -/
def backoffChoice (attempt : Nat) : String × Nat :=
  if attempt = 1 then ("info", 0)
  else if attempt < 10 then ("warn", 1000)
  else ("error", 5000)

/-! ### The ping RPC's callback discipline

`StreamClient.prototype.ping` either completes immediately (when
`this.client === null`) with `Error('stream not connected')`, or registers
`req.on('data', log)`, `req.once('end', callback)` and
`req.once('error', callback)` on the ping channel.  `pingCallbacks`
replays a channel event trace through those three registrations and
collects the callback invocations in order. -/

/-- Events a ping RPC channel can emit. -/
inductive ChanEvent where
  | endEv
  | errEv
  | dataEv
deriving DecidableEq, Repr

/-- One invocation of the ping callback: either the immediate
`stream not connected` error, or the channel event (`end` or `error`)
that fired it. -/
inductive PingResult where
  | errMsg (s : String)
  | chanOutcome (e : ChanEvent)
deriving DecidableEq, Repr

/-- Replay a trace against `req.once('end', callback)`,
`req.once('error', callback)` and the frame-discarding data handler; the
two Booleans record whether each `once` registration has already fired. -/
def pingCallbacks : Bool → Bool → List ChanEvent → List PingResult
  | _, _, [] => []
  | endDone, errDone, .dataEv :: rest => pingCallbacks endDone errDone rest
  | endDone, errDone, .endEv :: rest =>
      if endDone then pingCallbacks endDone errDone rest
      else .chanOutcome .endEv :: pingCallbacks true errDone rest
  | endDone, errDone, .errEv :: rest =>
      if errDone then pingCallbacks endDone errDone rest
      else .chanOutcome .errEv :: pingCallbacks endDone true rest

/-- `StreamClient.prototype.ping`: the sequence of callback invocations,
given whether `this.client` is null and the event trace of the ping
channel. -/
def ping (clientIsNull : Bool) (trace : List ChanEvent) : List PingResult :=
  if clientIsNull then [.errMsg "stream not connected"]
  else pingCallbacks false false trace

/-! ## Helper lemmas -/

/-- The frames written on channel `ch` among a list of effects, in order. -/
def writesOn (ch : Nat) : List Effect → List JSVal
  | [] => []
  | .write ch2 f :: rest =>
      if ch2 = ch then f :: writesOn ch rest else writesOn ch rest
  | _ :: rest => writesOn ch rest

theorem count_eraseFirstStr_self (l : List String) (a : String) :
    (eraseFirstStr l a).count a = l.count a - 1 := by
  induction l with
  | nil => simp [eraseFirstStr]
  | cons x xs ih =>
    by_cases hx : x = a
    · subst hx
      simp [eraseFirstStr, List.count_cons]
    · simp [eraseFirstStr, hx, List.count_cons, Ne.symm hx, ih]

theorem mapFind_mapSet_self (m : List (String × Nat)) (k : String) (v : Nat) :
    mapFind (mapSet m k v) k = some v := by
  induction m with
  | nil => simp [mapSet, mapFind]
  | cons p rest ih =>
    by_cases hk : p.1 = k
    · simp [mapSet, mapFind, hk]
    · simp [mapSet, mapFind, hk, ih]

/-! ## The claims -/

/-- C9: the reconnect backoff schedule is a function of the attempt counter
only: attempt 1 yields a 0 ms delay at level info, attempts 2 through 9 yield
1000 ms at level warn, and every attempt at least 10 yields 5000 ms at level
error, with no bound on the attempt number. -/
theorem C9_backoff_schedule (a : Nat) :
    (a = 1 → backoffChoice a = ("info", 0)) ∧
    (2 ≤ a → a ≤ 9 → backoffChoice a = ("warn", 1000)) ∧
    (10 ≤ a → backoffChoice a = ("error", 5000)) := by
  refine ⟨fun h1 => ?_, fun h2 h9 => ?_, fun h10 => ?_⟩
  · subst h1; rfl
  · have hne : a ≠ 1 := by omega
    have hlt : a < 10 := by omega
    simp [backoffChoice, hne, hlt]
  · have hne : a ≠ 1 := by omega
    have hnlt : ¬ a < 10 := by omega
    simp [backoffChoice, hne, hnlt]

theorem C9_backoff_schedule_witness :
    backoffChoice 1 = ("info", 0) ∧
    backoffChoice 5 = ("warn", 1000) ∧
    backoffChoice 12 = ("error", 5000) :=
  ⟨(C9_backoff_schedule 1).1 rfl,
   (C9_backoff_schedule 5).2.1 (by decide) (by decide),
   (C9_backoff_schedule 12).2.2 (by decide)⟩

/-- C7: from every state in which the client can be resident when `close()`
runs — every state except `stopped`, and except the entry-transient
`restart` and `closing`, whose entry functions transition away
unconditionally before control returns to the event loop, so `close()` can
never be issued while the FSM sits in them — the `closeAsserted` event is
handled and routes the FSM into `closing`, and `closing`'s entry routes it
into `stopped` regardless of the `emittedConnect` latch.  In particular a
`close()` issued during the `connecting.error` backoff reaches `stopped`:
`connecting.error` is a sub-state of `connecting`, so `state_connecting`'s
`closeAsserted` handler stays in force there, preempting the backoff
timer. -/
theorem C7_close_routes_to_closing (s : CState)
    (hstop : s ≠ CState.stopped)
    (hrestart : s ≠ CState.restart)
    (hclosing : s ≠ CState.closing) :
    handleEvent s CEvent.closeAsserted = some CState.closing ∧
    entryStep false CState.closing = some CState.stopped ∧
    entryStep true CState.closing = some CState.stopped := by
  cases s <;> simp_all [handleEvent, entryStep]

theorem C7_close_routes_to_closing_witness :
    (CState.connectingError ≠ CState.stopped ∧
      CState.connectingError ≠ CState.restart ∧
      CState.connectingError ≠ CState.closing) ∧
    (handleEvent CState.connectingError CEvent.closeAsserted =
        some CState.closing ∧
      entryStep false CState.closing = some CState.stopped ∧
      entryStep true CState.closing = some CState.stopped) :=
  ⟨⟨by decide, by decide, by decide⟩,
   C7_close_routes_to_closing CState.connectingError (by decide) (by decide)
     (by decide)⟩

/-- C10: a `messages` or `ping` RPC whose single argument is an array or null
is rejected with the corresponding "RPC expects an options object" error,
because `isObject` excludes null and arrays; the server state is untouched. -/
theorem C10_null_array_rejected (st : ServerState) (ch : Nat) (v : JSVal)
    (h : v = JSVal.null ∨ isArray v = true) :
    messagesHandler st [v] ch =
      (st, [Effect.failRpc "\"messages\" RPC expects an options object"]) ∧
    pingHandler [v] =
      [Effect.failRpc "\"ping\" RPC expects an options object"] := by
  have hobj : isObject v = false := by
    rcases h with h | h
    · subst h; rfl
    · cases v <;> simp_all [isArray, isObject, typeofStr, isNull]
  constructor
  · simp [messagesHandler, hobj]
  · simp [pingHandler, hobj]

theorem C10_null_array_rejected_witness :
    ((JSVal.null = JSVal.null ∨ isArray JSVal.null = true) ∧
      (messagesHandler { clients := [], stateClients := [], server_id := "S" }
          [JSVal.null] 0 =
        ({ clients := [], stateClients := [], server_id := "S" },
         [Effect.failRpc "\"messages\" RPC expects an options object"]) ∧
       pingHandler [JSVal.null] =
         [Effect.failRpc "\"ping\" RPC expects an options object"])) ∧
    (isArray (jarr []) = true ∧
      pingHandler [jarr []] =
        [Effect.failRpc "\"ping\" RPC expects an options object"]) :=
  ⟨⟨Or.inl rfl,
    C10_null_array_rejected
      { clients := [], stateClients := [], server_id := "S" } 0 JSVal.null
      (Or.inl rfl)⟩,
   ⟨rfl,
    (C10_null_array_rejected
      { clients := [], stateClients := [], server_id := "S" } 0 (jarr [])
      (Or.inr rfl)).2⟩⟩

/-- C5 (amended): a single-object-argument `messages` RPC fails with the
diagnostic `clients must provide their "client_id"` — registering nothing —
exactly when `client_id` is not a string; a string `client_id`, including the
empty string, passes validation and the subscription is registered via
`addClient`. -/
theorem C5_client_id_validation (st : ServerState) (opts : JSVal) (ch : Nat)
    (hobj : isObject opts = true) :
    (isString (getField opts "client_id") = false →
      messagesHandler st [opts] ch =
        (st, [Effect.failRpc "clients must provide their \"client_id\""])) ∧
    (isString (getField opts "client_id") = true →
      messagesHandler st [opts] ch = addClient st opts ch) := by
  constructor
  · intro hs
    simp [messagesHandler, hobj, hs]
  · intro hs
    simp [messagesHandler, hobj, hs]

theorem C5_client_id_validation_witness :
    (isObject (jobj [("client_id", JSVal.num 3)]) = true ∧
      messagesHandler { clients := [], stateClients := [], server_id := "S" }
          [jobj [("client_id", JSVal.num 3)]] 0 =
        ({ clients := [], stateClients := [], server_id := "S" },
         [Effect.failRpc "clients must provide their \"client_id\""])) :=
  ⟨rfl,
   (C5_client_id_validation
      { clients := [], stateClients := [], server_id := "S" }
      (jobj [("client_id", JSVal.num 3)]) 0 rfl).1 rfl⟩

/-- C5's counterexample: the empty string is not a non-empty string, yet the
`messages` RPC accepts it — no failure effect is produced and the
subscription is registered under client_id "". -/
theorem C5_empty_client_id_cex :
    getField (jobj [("client_id", JSVal.str "")]) "client_id" =
      JSVal.str "" ∧
    (messagesHandler { clients := [], stateClients := [], server_id := "S" }
        [jobj [("client_id", JSVal.str "")]] 3).2 = [] ∧
    (messagesHandler { clients := [], stateClients := [], server_id := "S" }
        [jobj [("client_id", JSVal.str "")]] 3).1.stateClients = [""] ∧
    (messagesHandler { clients := [], stateClients := [], server_id := "S" }
        [jobj [("client_id", JSVal.str "")]] 3).1.clients = [("", 3)] := by
  refine ⟨rfl, ?_, ?_, ?_⟩ <;> decide

/-- C6 (amended): a single-object-argument `ping` RPC fails with
`"req_id" must be a string if provided` exactly when `opts.req_id` is truthy
and not a string; a falsy non-string `req_id` (0, false, null, NaN, the empty
string) slips past the `opts.req_id &&` guard and the ping succeeds. -/
theorem C6_req_id_validation (opts : JSVal) (hobj : isObject opts = true) :
    pingHandler [opts] =
      (if truthy (getField opts "req_id") &&
          !isString (getField opts "req_id")
       then [Effect.failRpc "\"req_id\" must be a string if provided"]
       else [Effect.endRpc]) := by
  by_cases hg : (truthy (getField opts "req_id") &&
      !isString (getField opts "req_id")) = true
  · simp [pingHandler, hobj, hg]
  · simp [pingHandler, hobj, hg]

theorem C6_req_id_validation_witness :
    (isObject (jobj [("req_id", JSVal.num 5)]) = true ∧
      pingHandler [jobj [("req_id", JSVal.num 5)]] =
        [Effect.failRpc "\"req_id\" must be a string if provided"]) :=
  ⟨rfl, by
    have h := C6_req_id_validation (jobj [("req_id", JSVal.num 5)]) rfl
    simpa using h⟩

/-- C6's counterexample: `req_id` equal to the number 0 is not a string, yet
the ping RPC succeeds (`rpc.end()`), because `opts.req_id && ...` short
circuits on the falsy 0. -/
theorem C6_falsy_req_id_cex :
    getField (jobj [("req_id", JSVal.num 0)]) "req_id" = JSVal.num 0 ∧
    isString (JSVal.num 0) = false ∧
    pingHandler [jobj [("req_id", JSVal.num 0)]] = [Effect.endRpc] := by
  refine ⟨rfl, rfl, ?_⟩
  decide

theorem writesOn_append (ch : Nat) (a b : List Effect) :
    writesOn ch (a ++ b) = writesOn ch a ++ writesOn ch b := by
  induction a with
  | nil => simp [writesOn]
  | cons e rest ih =>
    cases e <;> simp [writesOn, ih] <;> split <;> simp [ih]

/-- C3 (amended): `addClient` writes the sync record — and nothing else — on
the new subscription's channel exactly when the argument has an own `version`
property and `opts.version >= 1` holds under the JS comparison (so not only
for numbers at least 1, but for any value whose ToNumber coercion is at least
1, such as the boolean true or a numeric string). -/
theorem C3_sync_condition (st : ServerState) (opts : JSVal) (ch : Nat)
    (hs : isString (getField opts "client_id") = true) :
    writesOn ch (addClient st opts ch).2 =
      (if hasOwn opts "version" && jsGe1 (getField opts "version")
       then [syncRecord st] else []) := by
  unfold addClient
  by_cases hc :
      st.stateClients.contains (asString (getField opts "client_id")) = true
  · simp only [hc, if_true]
    unfold removeClient
    cases hfind :
        mapFind st.clients (asString (getField opts "client_id")) with
    | none =>
      simp only [writesOn_append]
      split <;> simp [writesOn, syncRecord]
    | some oldCh =>
      simp only [writesOn_append]
      split <;> simp [writesOn, syncRecord]
  · simp only [hc, if_false, Bool.false_eq_true]
    simp only [writesOn_append]
    split <;> simp [writesOn, syncRecord]

theorem C3_sync_condition_witness :
    (isString
        (getField
          (jobj [("client_id", JSVal.str "c"), ("version", JSVal.num 2)])
          "client_id") = true) ∧
    writesOn 5
        (addClient { clients := [], stateClients := [], server_id := "S" }
          (jobj [("client_id", JSVal.str "c"), ("version", JSVal.num 2)])
          5).2 =
      (if hasOwn (jobj [("client_id", JSVal.str "c"),
                        ("version", JSVal.num 2)]) "version" &&
          jsGe1 (getField (jobj [("client_id", JSVal.str "c"),
                                 ("version", JSVal.num 2)]) "version")
       then [syncRecord
              { clients := [], stateClients := [], server_id := "S" }]
       else []) :=
  ⟨rfl,
   C3_sync_condition { clients := [], stateClients := [], server_id := "S" }
     (jobj [("client_id", JSVal.str "c"), ("version", JSVal.num 2)]) 5 rfl⟩

/-- C3's counterexample: a declared `version` equal to the boolean true is
not a number, yet the server writes the sync record as the subscription's
first frame, because the JS comparison `true >= 1` coerces true to 1. -/
theorem C3_version_coercion_cex :
    isNumber
      (getField
        (jobj [("client_id", JSVal.str "c"), ("version", JSVal.bool true)])
        "version") = false ∧
    (addClient { clients := [], stateClients := [], server_id := "S" }
        (jobj [("client_id", JSVal.str "c"), ("version", JSVal.bool true)])
        5).2 =
      [Effect.write 5
        (syncRecord { clients := [], stateClients := [], server_id := "S" })] ∧
    getField
      (syncRecord { clients := [], stateClients := [], server_id := "S" })
      "name" = JSVal.str "sync" := by
  refine ⟨rfl, ?_, rfl⟩
  decide

/-- C4 (amended): every `send` updates `state.last_req_id` to the req_id
stamped on the broadcast message (the supplied one, or the generated one when
the supplied value is falsy); `state.last_id` is updated to `opts.id` exactly
when `opts.id` is truthy, so an event carrying the number 0 as its id — and
any event without an id — leaves `last_id` unchanged. -/
theorem C4_last_ids (st : ServerState) (opts : JSVal) (fresh : String)
    (hv : validSendOpts opts = true) :
    (send st opts fresh).1.last_req_id =
      getField (sendMessage st opts fresh) "req_id" ∧
    (truthy (getField opts "id") = true →
      (send st opts fresh).1.last_id = getField opts "id") ∧
    (truthy (getField opts "id") = false →
      (send st opts fresh).1.last_id = st.last_id) := by
  refine ⟨rfl, fun h => ?_, fun h => ?_⟩
  · simp [send, h]
  · simp [send, h]

theorem C4_last_ids_witness :
    (validSendOpts
        (jobj [("name", JSVal.str "n"), ("value", JSVal.num 1),
               ("id", JSVal.num 4)]) = true) ∧
    truthy (getField (jobj [("name", JSVal.str "n"), ("value", JSVal.num 1),
               ("id", JSVal.num 4)]) "id") = true ∧
    (send { clients := [], stateClients := [], server_id := "S" }
        (jobj [("name", JSVal.str "n"), ("value", JSVal.num 1),
               ("id", JSVal.num 4)]) "F").1.last_id = JSVal.num 4 ∧
    (send { clients := [], stateClients := [], server_id := "S" }
        (jobj [("name", JSVal.str "n"), ("value", JSVal.num 1),
               ("id", JSVal.num 4)]) "F").1.last_req_id =
      getField (sendMessage
        { clients := [], stateClients := [], server_id := "S" }
        (jobj [("name", JSVal.str "n"), ("value", JSVal.num 1),
               ("id", JSVal.num 4)]) "F") "req_id" :=
  ⟨rfl, rfl,
   by
    have h := C4_last_ids
      { clients := [], stateClients := [], server_id := "S" }
      (jobj [("name", JSVal.str "n"), ("value", JSVal.num 1),
             ("id", JSVal.num 4)]) "F" rfl
    exact (h.2.1 rfl).trans rfl,
   (C4_last_ids { clients := [], stateClients := [], server_id := "S" }
      (jobj [("name", JSVal.str "n"), ("value", JSVal.num 1),
             ("id", JSVal.num 4)]) "F" rfl).1⟩

/-- C4's counterexample: the caller supplies `id = 0` — the event carries an
id field — yet `send` leaves `last_id` unchanged, because `if (opts.id)` is
false for the falsy number 0. -/
theorem C4_id_zero_cex :
    validSendOpts
      (jobj [("name", JSVal.str "n"), ("value", JSVal.num 1),
             ("id", JSVal.num 0)]) = true ∧
    getField (jobj [("name", JSVal.str "n"), ("value", JSVal.num 1),
             ("id", JSVal.num 0)]) "id" = JSVal.num 0 ∧
    (send { clients := [("c", 0)], stateClients := ["c"], server_id := "S",
            last_req_id := JSVal.undef, last_id := JSVal.num 7 }
        (jobj [("name", JSVal.str "n"), ("value", JSVal.num 1),
               ("id", JSVal.num 0)]) "F").1.last_id = JSVal.num 7 ∧
    JSVal.num 7 ≠ JSVal.num 0 := by
  refine ⟨rfl, rfl, rfl, ?_⟩
  decide

/-- C1 (amended): `send` writes exactly one message on every registered
subscription's channel (one write per registry entry, in registry order), and
that message carries the event's id, name and value, the server's server_id,
and a req_id equal to the caller's `req_id` when the caller supplied a truthy
(non-empty string) one and to the freshly generated uuid otherwise — in
particular a supplied empty-string req_id is replaced, because the code
computes `opts.req_id || uuid.v1()`. -/
theorem C1_send_fanout (st : ServerState) (opts : JSVal) (fresh : String)
    (hv : validSendOpts opts = true) :
    (send st opts fresh).2 =
      st.clients.map (fun p => Effect.write p.2 (sendMessage st opts fresh)) ∧
    getField (sendMessage st opts fresh) "id" = getField opts "id" ∧
    getField (sendMessage st opts fresh) "name" = getField opts "name" ∧
    getField (sendMessage st opts fresh) "value" = getField opts "value" ∧
    getField (sendMessage st opts fresh) "server_id" =
      JSVal.str st.server_id ∧
    (truthy (getField opts "req_id") = true →
      getField (sendMessage st opts fresh) "req_id" =
        getField opts "req_id") ∧
    (truthy (getField opts "req_id") = false →
      getField (sendMessage st opts fresh) "req_id" = JSVal.str fresh) := by
  refine ⟨rfl, rfl, rfl, rfl, rfl, fun h => ?_, fun h => ?_⟩
  · show jsOr (getField opts "req_id") (JSVal.str fresh) = _
    simp [jsOr, h]
  · show jsOr (getField opts "req_id") (JSVal.str fresh) = _
    simp [jsOr, h]

theorem C1_send_fanout_witness :
    (validSendOpts
        (jobj [("name", JSVal.str "update_name"),
               ("value", JSVal.str "foo"),
               ("req_id", JSVal.str "R"), ("id", JSVal.num 4)]) = true) ∧
    ((send { clients := [("c1", 0), ("c2", 1)],
                stateClients := ["c1", "c2"], server_id := "S" }
        (jobj [("name", JSVal.str "update_name"),
               ("value", JSVal.str "foo"),
               ("req_id", JSVal.str "R"), ("id", JSVal.num 4)]) "G").2 =
      [Effect.write 0
        (sendMessage { clients := [("c1", 0), ("c2", 1)],
                       stateClients := ["c1", "c2"], server_id := "S" }
          (jobj [("name", JSVal.str "update_name"),
                 ("value", JSVal.str "foo"),
                 ("req_id", JSVal.str "R"), ("id", JSVal.num 4)]) "G"),
       Effect.write 1
        (sendMessage { clients := [("c1", 0), ("c2", 1)],
                       stateClients := ["c1", "c2"], server_id := "S" }
          (jobj [("name", JSVal.str "update_name"),
                 ("value", JSVal.str "foo"),
                 ("req_id", JSVal.str "R"), ("id", JSVal.num 4)]) "G")] ∧
     getField (sendMessage { clients := [("c1", 0), ("c2", 1)],
                             stateClients := ["c1", "c2"], server_id := "S" }
          (jobj [("name", JSVal.str "update_name"),
                 ("value", JSVal.str "foo"),
                 ("req_id", JSVal.str "R"), ("id", JSVal.num 4)]) "G")
        "req_id" = JSVal.str "R") :=
  ⟨rfl, by
    have h := C1_send_fanout
      { clients := [("c1", 0), ("c2", 1)],
        stateClients := ["c1", "c2"], server_id := "S" }
      (jobj [("name", JSVal.str "update_name"), ("value", JSVal.str "foo"),
             ("req_id", JSVal.str "R"), ("id", JSVal.num 4)]) "G" rfl
    exact ⟨h.1, (h.2.2.2.2.2.1 rfl).trans rfl⟩⟩

/-- C1's counterexample: the caller supplies `req_id` — the empty string, a
valid value under `assert.optionalString` — yet the broadcast message's
req_id is the freshly generated uuid, not the supplied one, because
`opts.req_id || uuid.v1()` treats the empty string as absent. -/
theorem C1_empty_req_id_cex :
    validSendOpts
      (jobj [("name", JSVal.str "n"), ("value", JSVal.num 1),
             ("req_id", JSVal.str "")]) = true ∧
    getField (jobj [("name", JSVal.str "n"), ("value", JSVal.num 1),
             ("req_id", JSVal.str "")]) "req_id" = JSVal.str "" ∧
    (send { clients := [("c", 0)], stateClients := ["c"],
              server_id := "S" }
        (jobj [("name", JSVal.str "n"), ("value", JSVal.num 1),
               ("req_id", JSVal.str "")]) "FRESH").2 =
      [Effect.write 0
        (sendMessage { clients := [("c", 0)], stateClients := ["c"],
                       server_id := "S" }
          (jobj [("name", JSVal.str "n"), ("value", JSVal.num 1),
                 ("req_id", JSVal.str "")]) "FRESH")] ∧
    getField (sendMessage { clients := [("c", 0)], stateClients := ["c"],
                             server_id := "S" }
          (jobj [("name", JSVal.str "n"), ("value", JSVal.num 1),
                 ("req_id", JSVal.str "")]) "FRESH") "req_id" =
      JSVal.str "FRESH" ∧
    JSVal.str "FRESH" ≠ JSVal.str "" := by
  refine ⟨rfl, rfl, rfl, rfl, ?_⟩
  decide

/-- C2: when `addClient` runs with a client_id already present in the
registry (assuming the registry invariant that `state.clients` has no
duplicates and the clients map still holds that id's channel), the old
subscription's channel is ended, and afterwards the registry holds exactly
one subscription for that client_id — the new channel — and `state.clients`
lists the id exactly once. -/
theorem C2_duplicate_client (st : ServerState) (opts : JSVal) (cid : String)
    (oldCh newCh : Nat)
    (hcid : getField opts "client_id" = JSVal.str cid)
    (hmem : cid ∈ st.stateClients)
    (hnd : st.stateClients.Nodup)
    (hold : mapFind st.clients cid = some oldCh) :
    Effect.endCh oldCh ∈ (addClient st opts newCh).2 ∧
    (addClient st opts newCh).1.stateClients.count cid = 1 ∧
    mapFind (addClient st opts newCh).1.clients cid = some newCh := by
  have has : asString (getField opts "client_id") = cid := by
    rw [hcid]; rfl
  have hcont : st.stateClients.contains cid = true := by
    simpa using hmem
  have hcount1 : st.stateClients.count cid = 1 :=
    List.count_eq_one_of_mem hnd hmem
  simp only [addClient, has, hcont, if_true, removeClient, hold]
  refine ⟨by simp, ?_, ?_⟩
  · simp only [List.count_append, count_eraseFirstStr_self, hcount1]
    simp
  · exact mapFind_mapSet_self _ cid newCh

theorem C2_duplicate_client_witness :
    (getField (jobj [("client_id", JSVal.str "c")]) "client_id" =
        JSVal.str "c" ∧
      "c" ∈ ["c"] ∧ List.Nodup ["c"] ∧
      mapFind [("c", 0)] "c" = some 0) ∧
    (Effect.endCh 0 ∈
        (addClient { clients := [("c", 0)], stateClients := ["c"],
                     server_id := "S" }
          (jobj [("client_id", JSVal.str "c")]) 9).2 ∧
      (addClient { clients := [("c", 0)], stateClients := ["c"],
                   server_id := "S" }
          (jobj [("client_id", JSVal.str "c")]) 9).1.stateClients.count "c" =
        1 ∧
      mapFind (addClient { clients := [("c", 0)], stateClients := ["c"],
                           server_id := "S" }
          (jobj [("client_id", JSVal.str "c")]) 9).1.clients "c" = some 9) :=
  ⟨⟨rfl, by decide, by decide, rfl⟩,
   C2_duplicate_client
     { clients := [("c", 0)], stateClients := ["c"], server_id := "S" }
     (jobj [("client_id", JSVal.str "c")]) "c" 0 9 rfl (by decide)
     (by decide) rfl⟩

theorem pingCallbacks_length (t : List ChanEvent) : ∀ e r : Bool,
    (pingCallbacks e r t).length =
      (if t.contains ChanEvent.endEv && !e then 1 else 0) +
      (if t.contains ChanEvent.errEv && !r then 1 else 0) := by
  induction t with
  | nil => intro e r; simp [pingCallbacks]
  | cons ev rest ih =>
    intro e r
    cases ev with
    | dataEv => simp [pingCallbacks, ih e r, List.contains_cons]
    | endEv =>
      cases e with
      | true => simp [pingCallbacks, ih true r, List.contains_cons]
      | false =>
        simp only [pingCallbacks, if_false, Bool.false_eq_true,
          List.length_cons, ih true r, List.contains_cons]
        simp
        omega
    | errEv =>
      cases r with
      | true => simp [pingCallbacks, ih e true, List.contains_cons]
      | false =>
        simp only [pingCallbacks, if_false, Bool.false_eq_true,
          List.length_cons, ih e true, List.contains_cons]
        simp

/-- C8 (amended): in a non-stopped state, `ping`'s callback is invoked
exactly once with an error whose message is `stream not connected` when the
RPC client handle is null, and otherwise exactly once provided the ping
channel emits exactly one of its `end` and `error` events; the two separate
`once` registrations invoke the callback once per event kind, so a channel
that emits both `end` and `error` invokes it twice. -/
theorem C8_ping_callback_once (trace : List ChanEvent)
    (h : trace.contains ChanEvent.endEv ≠ trace.contains ChanEvent.errEv) :
    ping true trace = [PingResult.errMsg "stream not connected"] ∧
    (ping false trace).length = 1 := by
  refine ⟨rfl, ?_⟩
  have hlen := pingCallbacks_length trace false false
  simp only [ping, if_false, Bool.false_eq_true]
  rw [hlen]
  cases hE : trace.contains ChanEvent.endEv <;>
    cases hR : trace.contains ChanEvent.errEv <;>
      simp_all

theorem C8_ping_callback_once_witness :
    ([ChanEvent.endEv].contains ChanEvent.endEv ≠
        [ChanEvent.endEv].contains ChanEvent.errEv) ∧
    (ping true [ChanEvent.endEv] =
        [PingResult.errMsg "stream not connected"] ∧
      (ping false [ChanEvent.endEv]).length = 1) :=
  ⟨by decide, C8_ping_callback_once [ChanEvent.endEv] (by decide)⟩

/-- C8's counterexample: a ping channel that emits `end` and then `error`
invokes the callback twice — once from `req.once('end', callback)` and once
from `req.once('error', callback)` — contradicting "never twice even if both
end and error events occur". -/
theorem C8_double_invocation_cex :
    ping false [ChanEvent.endEv, ChanEvent.errEv] =
      [PingResult.chanOutcome ChanEvent.endEv,
       PingResult.chanOutcome ChanEvent.errEv] ∧
    (ping false [ChanEvent.endEv, ChanEvent.errEv]).length ≠ 1 := by
  refine ⟨rfl, ?_⟩
  decide
